import Mathlib

/-!
Verification of the video assembly and timing-synchronization pipeline of the
YoutubeAutomate repository.

The embedding models, over exact rationals (`ℚ` in place of Python floats):

* `run_automation.py` — `_extract_section_durations` (the Timeline Allocator)
  and `_step_create_video`;
* `src/kids_video_creator.py` — `create_video`'s output verification,
  `_build_image_filter`'s cross-fade parameters, and `_run_ffmpeg`'s
  retry/backoff loop;
* `src/background_music_mixer.py` — `mix_audio_with_music`;
* `src/kids_script_generator.py` — the `ScriptSection` / `VideoScript`
  dataclasses.

Python's built-in `round` (banker's rounding, round-half-to-even) is modelled
by `pyRound`.  File-system and subprocess effects are modelled by explicit
environment records; exceptions are modelled with `Option`/`Except`.
-/

namespace YoutubeAutomate

/-- Python's built-in `round` on a rational: round half to even. -/
def pyRound (q : ℚ) : ℤ :=
  if Int.fract q < 1/2 then ⌊q⌋
  else if 1/2 < Int.fract q then ⌊q⌋ + 1
  else if ⌊q⌋ % 2 = 0 then ⌊q⌋ else ⌊q⌋ + 1

lemma pyRound_le (q : ℚ) : (pyRound q : ℚ) ≤ q + 1/2 := by
  have hfr : Int.fract q = q - ⌊q⌋ := rfl
  have h0 : (0:ℚ) ≤ Int.fract q := Int.fract_nonneg q
  have h1 : Int.fract q < 1 := Int.fract_lt_one q
  unfold pyRound
  split
  · linarith
  · split
    · push_cast; next h _ => linarith [le_of_not_lt h]
    · split <;> [skip; skip] <;> push_cast <;>
        next h h' _ => linarith [le_of_not_lt h, le_of_not_lt h']

lemma le_pyRound (q : ℚ) : q - 1/2 ≤ (pyRound q : ℚ) := by
  have hfr : Int.fract q = q - ⌊q⌋ := rfl
  have h0 : (0:ℚ) ≤ Int.fract q := Int.fract_nonneg q
  have h1 : Int.fract q < 1 := Int.fract_lt_one q
  unfold pyRound
  split
  · next h => linarith
  · split
    · push_cast; linarith
    · split <;> [skip; skip] <;> push_cast <;>
        next h h' _ => linarith [le_of_not_lt h, le_of_not_lt h']

/-- If `b` exceeds `a` by strictly more than one, the rounded values are at
least one apart. -/
lemma pyRound_step (a b : ℚ) (h : a + 1 < b) : pyRound a + 1 ≤ pyRound b := by
  have ha := pyRound_le a
  have hb := le_pyRound b
  have : (pyRound a : ℚ) < pyRound b := by linarith
  exact_mod_cast Int.add_one_le_of_lt (by exact_mod_cast this)

/-- Rounding a value strictly below `k - 1/2` stays at most `k - 1`. -/
lemma pyRound_le_of_lt (q : ℚ) (k : ℤ) (h : q < (k : ℚ) - 1/2) :
    pyRound q ≤ k - 1 := by
  have hq := pyRound_le q
  have : (pyRound q : ℚ) < k := by linarith
  have : pyRound q < k := by exact_mod_cast this
  omega

/-- The `ScriptSection` dataclass of `src/kids_script_generator.py` (lines 22-29):
fields `section_number`, `title`, `duration_seconds`, `narration`,
`visual_suggestions` — and nothing else; in particular no `outro` field. -/
structure ScriptSection where
  section_number : ℤ
  title : String
  duration_seconds : ℚ
  narration : String
  visual_suggestions : List String
deriving DecidableEq

/-- The `VideoScript` dataclass of `src/kids_script_generator.py` (lines 32-42).
`intro` and `outro` are `Option`s: `_extract_section_durations` guards them
with `hasattr(script, ...) and script....`, so a missing or `None`/falsy
attribute (modelled as `none`) skips the corresponding branch. -/
structure VideoScript where
  topic : String
  target_duration_seconds : ℚ
  total_sections : ℤ
  intro : Option ScriptSection
  body_sections : List ScriptSection
  outro : Option ScriptSection
  full_narration : String
  estimated_word_count : ℤ
deriving DecidableEq

/-- Inner loop of Case 2 of `_extract_section_durations`
(`run_automation.py` lines 1003-1028), one step per section duration.
Arguments mirror the Python locals: `ips` is `images_per_section`
(`num_images / num_sections`), `m` is `num_images`, `n` is `num_sections`,
`i` the loop index, `assigned` is `images_assigned`, `acc` is
`image_durations`, and `counts` additionally records each `section_images`
value (the number of images the section received).  `jitter k` is the `k`-th
draw of `random.uniform(0.8, 1.2)` (one draw per appended image, in order).
A zero `section_images` would make `section_dur / section_images` raise
`ZeroDivisionError`, caught by the enclosing handler: modelled as `none`;
a negative `section_images` makes `range(section_images)` empty. -/
def distributeSections (ips : ℚ) (m n : ℕ) (jitter : ℕ → ℚ) :
    List ℚ → ℕ → ℤ → List ℚ → List ℤ → Option (List ℚ × List ℤ)
  | [], _, _, acc, counts => some (acc, counts)
  | sd :: rest, i, assigned, acc, counts =>
    let sec_imgs : ℤ :=
      if i + 1 = n then (m : ℤ) - assigned
      else max 1 (pyRound (((i : ℚ) + 1) * ips) - assigned)
    if sec_imgs = 0 then none
    else
      let dur_per_image := sd / (sec_imgs : ℚ)
      let imgs := (List.range sec_imgs.toNat).map
        (fun k => dur_per_image * jitter (acc.length + k))
      distributeSections ips m n jitter rest (i + 1) (assigned + sec_imgs)
        (acc ++ imgs) (counts ++ [sec_imgs])

/-- The three-way allocation of `_extract_section_durations`
(`run_automation.py` lines 985-1038), after `section_durations` has been
collected.  Case 1 (`num_sections == num_images`): return the section
durations unchanged.  Case 2 (`num_images > num_sections`): subdivide; with
`num_sections = 0` the line `images_per_section = num_images / num_sections`
raises `ZeroDivisionError`, caught by the enclosing handler (`none`).
Case 3 (`num_images < num_sections`): return `None`. -/
def allocate (section_durations : List ℚ) (num_images : ℕ) (jitter : ℕ → ℚ) :
    Option (List ℚ) :=
  if section_durations.length = num_images then some section_durations
  else if section_durations.length < num_images then
    if section_durations.length = 0 then none
    else
      (distributeSections ((num_images : ℚ) / (section_durations.length : ℚ))
        num_images section_durations.length jitter section_durations 0 0 [] []).map
        Prod.fst
  else none

/-- The per-section image counts produced by Case 2 of
`_extract_section_durations` (the `section_images` values of
`run_automation.py` lines 1003-1024), under the same guards as `allocate`. -/
def sectionCounts (section_durations : List ℚ) (num_images : ℕ)
    (jitter : ℕ → ℚ) : Option (List ℤ) :=
  if section_durations.length = num_images then none
  else if section_durations.length < num_images then
    if section_durations.length = 0 then none
    else
      (distributeSections ((num_images : ℚ) / (section_durations.length : ℚ))
        num_images section_durations.length jitter section_durations 0 0 [] []).map
        Prod.snd
  else none

/-- Model of `_extract_section_durations` of `run_automation.py` (lines 948-1042).
Returns `none` when script or images are missing.  Collects the intro
duration, the body-section durations, then — the outro step — executes
`section_durations.append(float(section.outro.duration_seconds))`
(line 980) whenever `script.outro` is truthy.  There `section` is the last
body `ScriptSection` (or an unbound name when `body_sections` is empty), and
`ScriptSection` has no `outro` attribute, so this raises
`AttributeError`/`NameError`, caught by the blanket handler at line 1040:
modelled as `none` whenever `outro` is present.  Otherwise the collected
durations go through the three-way allocation. -/
def extract_section_durations (script : Option VideoScript)
    (images : List String) (jitter : ℕ → ℚ) : Option (List ℚ) :=
  match script with
  | none => none
  | some s =>
    if images.isEmpty then none
    else
      let introDurs : List ℚ :=
        match s.intro with
        | some sec => [sec.duration_seconds]
        | none => []
      let bodyDurs : List ℚ := s.body_sections.map (fun sec => sec.duration_seconds)
      match s.outro with
      | some _ => none
      | none => allocate (introDurs ++ bodyDurs) images.length jitter

lemma sum_map_const_range (t : ℕ) (c : ℚ) :
    ((List.range t).map (fun _ => c)).sum = t * c := by
  induction t with
  | zero => simp
  | succ t ih =>
    rw [List.range_succ]
    simp only [List.map_append, List.sum_append, ih, List.map_cons, List.map_nil,
      List.sum_cons, List.sum_nil]
    push_cast
    ring

/-- Main loop invariant for Case 2 of `_extract_section_durations`: starting
section `i` with `images_assigned = pyRound(i * images_per_section)`
(equal to the sum of the counts recorded so far), the loop completes, hands
every section at least one image, assigns exactly `m` images in total,
appends one duration per assigned image, and — when every jitter draw is
`1` — the appended durations sum to the remaining section durations' sum. -/
lemma distribute_invariant (m n : ℕ) (jitter : ℕ → ℚ) (hn : 1 ≤ n) (hm : n < m) :
    ∀ (rest : List ℚ) (i : ℕ) (acc : List ℚ) (counts : List ℤ) (assigned : ℤ),
      i + rest.length = n → 1 ≤ rest.length →
      assigned = pyRound ((i : ℚ) * ((m : ℚ) / (n : ℚ))) →
      assigned = counts.sum →
      ∃ (newDurs : List ℚ) (newCounts : List ℤ),
        distributeSections ((m : ℚ) / (n : ℚ)) m n jitter rest i assigned acc counts
          = some (acc ++ newDurs, counts ++ newCounts) ∧
        newCounts.length = rest.length ∧
        (∀ c ∈ newCounts, 1 ≤ c) ∧
        counts.sum + newCounts.sum = (m : ℤ) ∧
        (newDurs.length : ℤ) = newCounts.sum ∧
        ((∀ k, jitter k = 1) → newDurs.sum = rest.sum) := by
  have hn0 : (0 : ℚ) < (n : ℚ) := by exact_mod_cast hn
  have hnne : (n : ℚ) ≠ 0 := ne_of_gt hn0
  have hips : (1 : ℚ) < (m : ℚ) / (n : ℚ) := by
    rw [lt_div_iff₀ hn0]
    have : (n : ℚ) < (m : ℚ) := by exact_mod_cast hm
    linarith
  intro rest
  induction rest with
  | nil =>
    intro i acc counts assigned _ hpos _ _
    simp at hpos
  | cons sd rest ih =>
    intro i acc counts assigned hlen hpos hassign hsum
    rcases rest with _ | ⟨sd2, rest2⟩
    · -- final section: `i + 1 = n`, it receives all remaining images
      have hin : i + 1 = n := by simpa using hlen
      have hi : (i : ℚ) = (n : ℚ) - 1 := by
        have : ((i : ℕ) : ℚ) + 1 = (n : ℚ) := by exact_mod_cast hin
        linarith
      have hub : pyRound ((i : ℚ) * ((m : ℚ) / (n : ℚ))) ≤ (m : ℤ) - 1 := by
        apply pyRound_le_of_lt
        rw [hi]
        have hmn : (n : ℚ) * ((m : ℚ) / (n : ℚ)) = (m : ℚ) := by
          field_simp
        have : ((n : ℚ) - 1) * ((m : ℚ) / (n : ℚ))
            = (m : ℚ) - (m : ℚ) / (n : ℚ) := by
          rw [sub_mul, hmn, one_mul]
        rw [this]
        push_cast
        linarith
      have hsec1 : 1 ≤ (m : ℤ) - assigned := by rw [hassign]; omega
      have hsecne : ¬ ((m : ℤ) - assigned = 0) := by omega
      have htn : (((m : ℤ) - assigned).toNat : ℤ) = (m : ℤ) - assigned :=
        Int.toNat_of_nonneg (by omega)
      refine ⟨(List.range ((m : ℤ) - assigned).toNat).map
          (fun k => sd / (((m : ℤ) - assigned : ℤ) : ℚ) * jitter (acc.length + k)),
        [(m : ℤ) - assigned], ?_, ?_, ?_, ?_, ?_, ?_⟩
      · simp only [distributeSections, if_pos hin, if_neg hsecne]
      · simp
      · simp [hsec1]
      · simp; omega
      · simp [htn]
      · intro hj
        have hne0 : ((((m : ℤ) - assigned) : ℤ) : ℚ) ≠ 0 := by
          exact_mod_cast (by omega : ((m : ℤ) - assigned) ≠ 0)
        simp only [hj, mul_one, sum_map_const_range, List.sum_cons, List.sum_nil,
          add_zero]
        rw [show ((((m : ℤ) - assigned).toNat : ℕ) : ℚ)
            = ((((m : ℤ) - assigned) : ℤ) : ℚ) by exact_mod_cast congrArg Int.cast htn]
        field_simp
        push_cast at hne0
        exact mul_div_cancel_left₀ sd hne0
    · -- a non-final section: `i + 1 < n`, the rounding formula applies
      have hin : ¬ (i + 1 = n) := by
        simp only [List.length_cons] at hlen
        omega
      have hstep : assigned + 1 ≤ pyRound (((i : ℚ) + 1) * ((m : ℚ) / (n : ℚ))) := by
        rw [hassign]
        apply pyRound_step
        have : ((i : ℚ) + 1) * ((m : ℚ) / (n : ℚ))
            = (i : ℚ) * ((m : ℚ) / (n : ℚ)) + (m : ℚ) / (n : ℚ) := by ring
        rw [this]
        linarith
      set R := pyRound (((i : ℚ) + 1) * ((m : ℚ) / (n : ℚ))) with hR
      have hmax : max 1 (R - assigned) = R - assigned := by omega
      have hsec1 : 1 ≤ R - assigned := by omega
      have hsecne : ¬ (R - assigned = 0) := by omega
      have htn : (((R - assigned).toNat : ℕ) : ℤ) = R - assigned :=
        Int.toNat_of_nonneg (by omega)
      have hlen' : (i + 1) + (sd2 :: rest2).length = n := by
        simp only [List.length_cons] at hlen ⊢
        omega
      have hassign' : assigned + (R - assigned)
          = pyRound (((i + 1 : ℕ) : ℚ) * ((m : ℚ) / (n : ℚ))) := by
        push_cast
        omega
      have hsum' : assigned + (R - assigned)
          = (counts ++ [R - assigned]).sum := by
        simp [← hsum]
      obtain ⟨nd, nc, heq, hlenc, hge, hsumc, hlend, hjsum⟩ :=
        ih (i + 1)
          (acc ++ (List.range (R - assigned).toNat).map
            (fun k => sd / ((R - assigned : ℤ) : ℚ) * jitter (acc.length + k)))
          (counts ++ [R - assigned]) (assigned + (R - assigned))
          hlen' (by simp) hassign' hsum'
      refine ⟨(List.range (R - assigned).toNat).map
          (fun k => sd / ((R - assigned : ℤ) : ℚ) * jitter (acc.length + k)) ++ nd,
        (R - assigned) :: nc, ?_, ?_, ?_, ?_, ?_, ?_⟩
      · rw [distributeSections, ← hR]
        simp only [if_neg hin, hmax, if_neg hsecne]
        rw [heq]
        simp
      · simp [hlenc]
      · intro c hc
        rcases List.mem_cons.mp hc with h | h
        · omega
        · exact hge c h
      · have := hsumc
        simp only [List.sum_append, List.sum_cons, List.sum_nil, add_zero] at this ⊢
        omega
      · simp only [List.length_append, List.length_map, List.length_range,
          List.sum_cons]
        push_cast [htn]
        omega
      · intro hj
        have hne0 : (((R - assigned) : ℤ) : ℚ) ≠ 0 := by
          exact_mod_cast (by omega : (R - assigned) ≠ 0)
        have h1 := hjsum hj
        simp only [List.sum_append, List.sum_cons]
        rw [h1]
        simp only [hj, mul_one, sum_map_const_range]
        rw [show (((R - assigned).toNat : ℕ) : ℚ)
            = (((R - assigned) : ℤ) : ℚ) by exact_mod_cast congrArg Int.cast htn]
        field_simp
        push_cast at hne0
        exact mul_div_cancel_left₀ sd hne0

lemma pyRound_zero : pyRound 0 = 0 := by
  norm_num [pyRound]

/-- Lemma `distribute_invariant` instantiated at the loop's entry
(`i = 0`, `images_assigned = 0`, empty accumulators). -/
lemma distribute_top (m : ℕ) (durs : List ℚ) (jitter : ℕ → ℚ)
    (hn : 1 ≤ durs.length) (hm : durs.length < m) :
    ∃ (nd : List ℚ) (nc : List ℤ),
      distributeSections ((m : ℚ) / (durs.length : ℚ)) m durs.length jitter
        durs 0 0 [] [] = some (nd, nc) ∧
      nc.length = durs.length ∧
      (∀ c ∈ nc, 1 ≤ c) ∧
      nc.sum = (m : ℤ) ∧
      (nd.length : ℤ) = nc.sum ∧
      ((∀ k, jitter k = 1) → nd.sum = durs.sum) := by
  obtain ⟨nd, nc, heq, h1, h2, h3, h4, h5⟩ :=
    distribute_invariant m durs.length jitter hn hm durs 0 [] [] 0
      (by simp) hn (by simp [pyRound_zero]) (by simp)
  refine ⟨nd, nc, ?_, h1, h2, ?_, h4, h5⟩
  · simpa using heq
  · simpa using h3

lemma sectionCounts_some (durs : List ℚ) (m : ℕ) (jitter : ℕ → ℚ)
    (hn : 1 ≤ durs.length) (hm : durs.length < m) :
    ∃ nc : List ℤ,
      sectionCounts durs m jitter = some nc ∧
      nc.length = durs.length ∧
      (∀ c ∈ nc, 1 ≤ c) ∧
      nc.sum = (m : ℤ) := by
  obtain ⟨nd, nc, heq, h1, h2, h3, _, _⟩ := distribute_top m durs jitter hn hm
  refine ⟨nc, ?_, h1, h2, h3⟩
  unfold sectionCounts
  rw [if_neg (by omega), if_pos hm, if_neg (by omega), heq]
  rfl

lemma allocate_more_sum (durs : List ℚ) (m : ℕ)
    (hn : 1 ≤ durs.length) (hm : durs.length < m) :
    (allocate durs m (fun _ => 1)).map List.sum = some durs.sum := by
  obtain ⟨nd, nc, heq, _, _, _, _, h5⟩ :=
    distribute_top m durs (fun _ => 1) hn hm
  unfold allocate
  rw [if_neg (by omega), if_pos hm, if_neg (by omega), heq]
  simp [h5 (fun _ => rfl)]

lemma allocate_equal (durs : List ℚ) (m : ℕ) (jitter : ℕ → ℚ)
    (h : durs.length = m) : allocate durs m jitter = some durs := by
  unfold allocate
  rw [if_pos h]

lemma allocate_fewer (durs : List ℚ) (m : ℕ) (jitter : ℕ → ℚ)
    (h : m < durs.length) : allocate durs m jitter = none := by
  unfold allocate
  rw [if_neg (by omega), if_neg (by omega)]

/-- C1 (counterexample): the sum of the per-asset durations produced by the
Timeline Allocator does not track the total narration duration.  Concrete
input: a script whose only section (the intro) is 10 s and one image, while
the probed narration lasts 100 s — a valid pipeline state, since the
LLM-authored section durations are advisory and independent of the probed
total.  The equal-match branch returns the section durations unchanged, so
the produced sum is 10, off from 100 by far more than 1e-3. -/
theorem claim_sum_invariant_counterexample :
    extract_section_durations
      (some { topic := "t", target_duration_seconds := 100, total_sections := 1,
              intro := some { section_number := 1, title := "Intro",
                              duration_seconds := 10, narration := "n",
                              visual_suggestions := [] },
              body_sections := [], outro := none,
              full_narration := "f", estimated_word_count := 20 })
      ["img1.png"] (fun _ => 1) = some [(10 : ℚ)] ∧
    ¬ |(10 : ℚ) - 100| ≤ 1 / 1000 := by
  constructor
  · rfl
  · norm_num

/-- C1 (amended): the sum of the per-asset durations equals the sum of the
SECTION durations, not the total narration duration (which
`_extract_section_durations` never sees): exactly so in the equal-match
branch; in the more-assets branch exactly when every jitter draw is 1 (an
arbitrary draw in [0.8, 1.2] perturbs each duration with no
renormalization); and the fewer-assets branch produces no durations at all
(`None`, the equal-distribution fallback signal). -/
theorem claim_sum_invariant_amended (durs : List ℚ) (m : ℕ) (jitter : ℕ → ℚ) :
    (durs.length = m → (allocate durs m jitter).map List.sum = some durs.sum) ∧
    (1 ≤ durs.length → durs.length < m →
      (allocate durs m (fun _ => 1)).map List.sum = some durs.sum) ∧
    (m < durs.length → allocate durs m jitter = none) := by
  refine ⟨fun h => ?_, fun hn hm => allocate_more_sum durs m hn hm,
    fun h => allocate_fewer durs m jitter h⟩
  rw [allocate_equal durs m jitter h]
  rfl

/-- Witness for C1 (amended): each branch at a concrete input. -/
theorem claim_sum_invariant_amended_witness :
    (allocate [(10 : ℚ), 20] 2 (fun _ => 2)).map List.sum
      = some ([(10 : ℚ), 20].sum) ∧
    (allocate [(30 : ℚ), 30, 30] 9 (fun _ => 1)).map List.sum
      = some ([(30 : ℚ), 30, 30].sum) ∧
    allocate [(10 : ℚ), 20, 30] 2 (fun _ => 1) = none :=
  ⟨(claim_sum_invariant_amended [10, 20] 2 (fun _ => 2)).1 rfl,
   (claim_sum_invariant_amended [30, 30, 30] 9 (fun _ => 1)).2.1 (by decide)
     (by decide),
   (claim_sum_invariant_amended [10, 20, 30] 2 (fun _ => 1)).2.2 (by decide)⟩

/-- C2 (counterexample): in the equal-match branch no proportional rescaling
happens.  Concrete input: sections [10, 20] (sum 30), 2 assets, probed
narration 90 s (valid: section durations are advisory).  The claim demands
the rescaled [30, 60] so the sum is 90; the code returns [10, 20]
unchanged. -/
theorem claim_equal_match_rescale_counterexample :
    allocate [(10 : ℚ), 20] 2 (fun _ => 1) = some [(10 : ℚ), 20] ∧
    (10 : ℚ) + 20 ≠ 90 ∧
    some [(10 : ℚ), 20] ≠ some [(30 : ℚ), 60] := by
  refine ⟨allocate_equal _ _ _ rfl, by norm_num, by decide⟩

/-- C2 (amended): when the number of section durations equals the number of
assets, each asset's assigned duration is exactly the corresponding section
duration, with no rescaling of any kind; the sum of assigned durations is
therefore the sum of the section durations, not the narration duration. -/
theorem claim_equal_match_no_rescale (durs : List ℚ) (m : ℕ) (jitter : ℕ → ℚ)
    (h : durs.length = m) : allocate durs m jitter = some durs :=
  allocate_equal durs m jitter h

/-- Witness for C2 (amended). -/
theorem claim_equal_match_no_rescale_witness :
    allocate [(12 : ℚ), 24] 2 (fun _ => 1) = some [(12 : ℚ), 24] :=
  claim_equal_match_no_rescale [12, 24] 2 (fun _ => 1) rfl

/-- C3 (confirmed): when assets outnumber sections, every non-final section
receives at least one asset, the final section receives exactly
`asset_count` minus the total assigned to the prior sections, and that
remainder is never fewer than 1. -/
theorem claim_last_section_absorption (durs : List ℚ) (m : ℕ) (jitter : ℕ → ℚ)
    (hn : 1 ≤ durs.length) (hm : durs.length < m) :
    ∃ cs : List ℤ,
      sectionCounts durs m jitter = some cs ∧
      cs.length = durs.length ∧
      (∀ c ∈ cs.dropLast, 1 ≤ c) ∧
      cs.getLast? = some ((m : ℤ) - cs.dropLast.sum) ∧
      1 ≤ (m : ℤ) - cs.dropLast.sum := by
  obtain ⟨cs, heq, hlen, hge, hsum⟩ := sectionCounts_some durs m jitter hn hm
  have hne : cs ≠ [] := by
    intro h
    rw [h] at hlen
    simp at hlen
    omega
  have hsplit : cs.dropLast ++ [cs.getLast hne] = cs :=
    List.dropLast_append_getLast hne
  have hsum2 : cs.dropLast.sum + cs.getLast hne = (m : ℤ) := by
    rw [← hsum]
    conv_rhs => rw [← hsplit]
    simp
  have hlast : cs.getLast hne = (m : ℤ) - cs.dropLast.sum := by omega
  refine ⟨cs, heq, hlen, ?_, ?_, ?_⟩
  · intro c hc
    exact hge c ((List.dropLast_sublist cs).subset hc)
  · rw [List.getLast?_eq_getLast cs hne, hlast]
  · rw [← hlast]
    exact hge _ (List.getLast_mem hne)

/-- Witness for C3: the spec's oversupplied-assets scenario
(`allocate(90, [30,30,30], 9)`). -/
theorem claim_last_section_absorption_witness :
    ∃ cs : List ℤ,
      sectionCounts [(30 : ℚ), 30, 30] 9 (fun _ => 1) = some cs ∧
      cs.length = ([(30 : ℚ), 30, 30]).length ∧
      (∀ c ∈ cs.dropLast, 1 ≤ c) ∧
      cs.getLast? = some (((9 : ℕ) : ℤ) - cs.dropLast.sum) ∧
      1 ≤ (((9 : ℕ) : ℤ)) - cs.dropLast.sum :=
  claim_last_section_absorption [30, 30, 30] 9 (fun _ => 1) (by decide) (by decide)

/-- C9 (confirmed): for every well-formed script — intro present, at least
one body section, outro present — `_extract_section_durations` returns
`None`: line 980 reads `section.outro` from the last body `ScriptSection`,
which has no `outro` attribute, so an `AttributeError` is raised and caught,
and neither the one-to-one nor the proportional-subdivision branch is ever
reached. -/
theorem claim_outro_attribute_fallback (s : VideoScript) (images : List String)
    (jitter : ℕ → ℚ) (_hintro : s.intro.isSome) (_hbody : s.body_sections ≠ [])
    (houtro : s.outro.isSome) :
    extract_section_durations (some s) images jitter = none := by
  obtain ⟨sec, hsec⟩ := Option.isSome_iff_exists.mp houtro
  simp [extract_section_durations, hsec]

/-- Witness for C9: a concrete intro/body/outro script with three images. -/
theorem claim_outro_attribute_fallback_witness :
    extract_section_durations
      (some { topic := "Colors", target_duration_seconds := 180,
              total_sections := 3,
              intro := some { section_number := 1, title := "Intro",
                              duration_seconds := 20, narration := "hi",
                              visual_suggestions := [] },
              body_sections := [{ section_number := 2, title := "Body",
                                  duration_seconds := 40, narration := "b",
                                  visual_suggestions := [] }],
              outro := some { section_number := 3, title := "Outro",
                              duration_seconds := 15, narration := "bye",
                              visual_suggestions := [] },
              full_narration := "all", estimated_word_count := 100 })
      ["a.png", "b.png", "c.png"] (fun _ => 1) = none :=
  claim_outro_attribute_fallback _ _ _ rfl (by simp) rfl

/-! ### `src/kids_video_creator.py` -/

/-- Constant `KidsVideoCreator.FADE_DURATION` (kids_video_creator.py line 48). -/
def FADE_DURATION : ℚ := 0.8

/-- The `transitions` list of `_build_image_filter`
(kids_video_creator.py line 398). -/
def transitions : List String :=
  ["fade", "wipeleft", "wiperight", "slideleft", "slideright", "smoothleft",
   "smoothright", "circleopen", "circleclose"]

/-- One `xfade` step of the filter graph: the junction joining the chain of
assets `0..index-1` with asset `index`, with the xfade `transition`,
`duration` and `offset` parameters emitted into the filter string. -/
structure XfadeJunction where
  index : ℕ
  transition : String
  duration : ℚ
  offset : ℚ
deriving DecidableEq

/-- The cross-fade junctions built by `_build_image_filter`
(kids_video_creator.py lines 392-425): for `i in range(1, len(images))` one
`xfade` with `transition` chosen by the `i % 3` rotation (line 405-408),
`duration=FADE_DURATION`, and `offset = fade_start` where
`fade_start = duration_per_image - FADE_DURATION` (line 401) — computed
inside the loop but independent of `i`.  A single image yields no
junction. -/
def build_image_filter_xfades (numImages : ℕ) (duration_per_image : ℚ) :
    List XfadeJunction :=
  if 1 < numImages then
    (List.range (numImages - 1)).map (fun k =>
      { index := k + 1,
        transition :=
          if (k + 1) % 3 = 0 ∧ k + 1 < numImages - 1 then
            transitions.getD ((k + 1) % transitions.length) "fade"
          else "fade",
        duration := FADE_DURATION,
        offset := duration_per_image - FADE_DURATION })
  else []

/-- Nominal start time of asset `i` on the timeline when every asset is held
for `duration_per_image` seconds, as in `create_video` (which divides the
probed audio duration evenly, line 141): `cumulative-offset[i] =
sum(duration[0..i-1]) = i * duration_per_image`. -/
def cumulativeStart (i : ℕ) (duration_per_image : ℚ) : ℚ := i * duration_per_image

/-- State of the declared output file after the encoder subprocess exits. -/
structure OutputFileState where
  present : Bool
  sizeBytes : ℕ
deriving DecidableEq

/-- The post-encode verification in `create_video`
(kids_video_creator.py lines 157-164): after `_run_ffmpeg` returns (encoder
exit status 0), raise `RuntimeError("Video file was not created")` when the
output path does not exist; otherwise the size is computed for logging only
and the path is returned. -/
def create_video_verify (fs : OutputFileState) : Except String Unit :=
  if !fs.present then Except.error "Video file was not created"
  else Except.ok ()

/-- Whether `pat` is a prefix of `s` (character lists). -/
def listStartsWith : List Char → List Char → Bool
  | [], _ => true
  | _ :: _, [] => false
  | p :: ps, c :: cs => (p == c) && listStartsWith ps cs

/-- Whether `pat` occurs contiguously inside `s`. -/
def listContainsSub : List Char → List Char → Bool
  | [], pat => pat.isEmpty
  | c :: rest, pat => listStartsWith pat (c :: rest) || listContainsSub rest pat

/-- Python's `pat in s` on strings. -/
def containsSub (s pat : String) : Bool := listContainsSub s.toList pat.toList

/-- The transient-failure classification of `_run_ffmpeg`
(kids_video_creator.py lines 482-487). -/
def isTransientError (error_output : String) : Bool :=
  containsSub error_output "Resource temporarily unavailable" ||
  containsSub error_output "Connection reset" ||
  containsSub error_output "Broken pipe" ||
  containsSub error_output "I/O error"

/-- Outcome of one encoder subprocess execution (attempt), as observed by
the `try` of `_run_ffmpeg`: normal exit 0 (with stderr text), non-zero exit
(`subprocess.CalledProcessError` with stderr text), the 3600 s timeout
(`subprocess.TimeoutExpired`), missing executable (`FileNotFoundError`), or
any other exception. -/
inductive RunOutcome where
  | success (stderr : String)
  | calledProcessError (stderr : String)
  | timeoutExpired
  | fileNotFound
  | otherError
deriving DecidableEq

/-- How `_run_ffmpeg` terminates: normal return, or which exception
propagates out of it.  `loopExhausted` models falling out of the `for` loop
into `raise last_error` (unreachable when `1 ≤ max_retries`). -/
inductive FfmpegResult where
  | ok
  | raisedProcessError (stderr : String)
  | raisedTimeout
  | raisedNotFound
  | raisedOther
  | loopExhausted
deriving DecidableEq

/-- The retry loop of `KidsVideoCreator._run_ffmpeg`
(kids_video_creator.py lines 432-524), `for attempt in range(1,
max_retries+1)`: success returns; `TimeoutExpired` raises immediately;
`FileNotFoundError` raises immediately; `CalledProcessError` retries after
sleeping `2 ** attempt` seconds only when `attempt < max_retries` and the
stderr matches a transient pattern, else re-raises; any other exception
retries (with the same backoff) while `attempt < max_retries`, else
re-raises.  `remaining` is the number of loop iterations still available
(`max_retries - attempt + 1`); the result records the number of attempts
executed, the backoff sleeps performed, and the termination. -/
def runFfmpegLoop (outcomes : ℕ → RunOutcome) (max_retries : ℕ) :
    ℕ → ℕ → List ℕ → ℕ × List ℕ × FfmpegResult
  | 0, attempt, sleeps => (attempt - 1, sleeps, FfmpegResult.loopExhausted)
  | remaining + 1, attempt, sleeps =>
    match outcomes attempt with
    | RunOutcome.success _ => (attempt, sleeps, FfmpegResult.ok)
    | RunOutcome.timeoutExpired => (attempt, sleeps, FfmpegResult.raisedTimeout)
    | RunOutcome.fileNotFound => (attempt, sleeps, FfmpegResult.raisedNotFound)
    | RunOutcome.calledProcessError err =>
      if attempt < max_retries ∧ isTransientError err = true then
        runFfmpegLoop outcomes max_retries remaining (attempt + 1)
          (sleeps ++ [2 ^ attempt])
      else (attempt, sleeps, FfmpegResult.raisedProcessError err)
    | RunOutcome.otherError =>
      if attempt < max_retries then
        runFfmpegLoop outcomes max_retries remaining (attempt + 1)
          (sleeps ++ [2 ^ attempt])
      else (attempt, sleeps, FfmpegResult.raisedOther)

/-- The `max_retries=3` default of `_run_ffmpeg`'s signature
(kids_video_creator.py line 432), the value every caller uses. -/
def MAX_RETRIES : ℕ := 3

/-- Model of `_run_ffmpeg` with a given retry ceiling, starting at attempt 1 with no
sleeps performed. -/
def run_ffmpeg (outcomes : ℕ → RunOutcome) (max_retries : ℕ) :
    ℕ × List ℕ × FfmpegResult :=
  runFfmpegLoop outcomes max_retries max_retries 1 []

/-! ### `src/background_music_mixer.py` -/

/-- The table `BackgroundMusicMixer.DEFAULT_MUSIC_TRACKS`
(background_music_mixer.py lines 18-24): track key → file name. -/
def DEFAULT_MUSIC_TRACKS : List (String × String) :=
  [("upbeat_kids", "upbeat_kids.mp3"),
   ("gentle_learning", "gentle_learning.mp3"),
   ("playful_melody", "playful_melody.mp3"),
   ("happy_piano", "happy_piano.mp3"),
   ("cheerful_ukulele", "cheerful_ukulele.mp3")]

/-- The table `BackgroundMusicMixer.CATEGORY_MUSIC_SETTINGS`
(background_music_mixer.py lines 27-44): category → (track key, volume). -/
def CATEGORY_MUSIC_SETTINGS : List (String × String × ℚ) :=
  [("english_alphabet", "upbeat_kids", 0.15),
   ("hindi_alphabet", "upbeat_kids", 0.15),
   ("numbers_counting", "playful_melody", 0.18),
   ("colors_shapes", "cheerful_ukulele", 0.16),
   ("fruits_vegetables", "happy_piano", 0.15),
   ("animals_sounds", "playful_melody", 0.14),
   ("simple_logic", "gentle_learning", 0.17),
   ("body_parts", "upbeat_kids", 0.16),
   ("daily_habits", "gentle_learning", 0.15),
   ("emotions", "gentle_learning", 0.14),
   ("basic_math", "playful_melody", 0.17),
   ("rhymes_learning", "cheerful_ukulele", 0.18),
   ("memory_games", "upbeat_kids", 0.16),
   ("puzzle_games", "playful_melody", 0.17),
   ("observation_games", "upbeat_kids", 0.16),
   ("default", "upbeat_kids", 0.15)]

/-- The music file selected for a category
(background_music_mixer.py lines 98-105): settings looked up with the
`'default'` entry `("upbeat_kids", 0.15)` as fallback, then the file name
from `DEFAULT_MUSIC_TRACKS` (`none` models a `KeyError` there). -/
def categoryTrackFile (category : String) : Option String :=
  DEFAULT_MUSIC_TRACKS.lookup
    ((CATEGORY_MUSIC_SETTINGS.lookup category).getD ("upbeat_kids", 0.15)).1

/-- Environment for `mix_audio_with_music`: which music files exist in
`music_dir`, the byte content of each readable file, whether the ffprobe
duration query succeeds, whether the ffmpeg mixing subprocess succeeds, and
the bytes the encoder would write on success.  Per the claim's hypothesis
the narration file exists and the output path is writable, so the
`shutil.copy2` fallbacks themselves succeed. -/
structure MixEnv where
  musicExists : String → Bool
  fileBytes : String → List ℕ
  proberOk : Bool
  encoderOk : Bool
  mixedBytes : List ℕ

/-- The `try` body of `mix_audio_with_music`
(background_music_mixer.py lines 96-151).  `Except.error ()` is an exception
escaping the body: a `KeyError` on the track table, an ffprobe failure in
`_get_audio_duration`, or a `CalledProcessError` from the mixing subprocess
(either ducking or simple mode).  The missing-music branch (lines 108-116)
is a normal return that copies the narration bytes to `output_path`.  The
result pairs the returned path with the bytes written at `output_path`. -/
def mixAudioTry (env : MixEnv) (voiceover_path output_path category : String) :
    Except Unit (String × List ℕ) :=
  match categoryTrackFile category with
  | none => Except.error ()
  | some fname =>
    if !env.musicExists fname then
      Except.ok (output_path, env.fileBytes voiceover_path)
    else if !env.proberOk then Except.error ()
    else if !env.encoderOk then Except.error ()
    else Except.ok (output_path, env.mixedBytes)

/-- Model of `mix_audio_with_music` with its blanket `except Exception` handler
(background_music_mixer.py lines 152-157): any exception from the body falls
back to `shutil.copy2(voiceover_path, output_path)` and returns
`output_path`. -/
def mix_audio_with_music (env : MixEnv)
    (voiceover_path output_path category : String) : String × List ℕ :=
  match mixAudioTry env voiceover_path output_path category with
  | Except.ok r => r
  | Except.error _ => (output_path, env.fileBytes voiceover_path)

/-! ### `_step_create_video` of `run_automation.py` -/

/-- Parameter names accepted by `KidsVideoCreator.create_video`
(kids_video_creator.py lines 81-88); the signature has no `**kwargs`. -/
def create_video_params : List String :=
  ["images", "voiceover_path", "output_filename", "background_music", "title"]

/-- Keyword arguments passed at the `creator.create_video(...)` call of
`_step_create_video` (run_automation.py lines 1096-1103). -/
def step_create_video_kwargs : List String :=
  ["images", "voiceover_path", "background_music", "output_filename", "title",
   "image_durations"]

/-- Python call semantics: passing a keyword whose name is not a parameter
of a function without `**kwargs` raises `TypeError` before the body runs. -/
def callRaisesTypeError (params kwargs : List String) : Bool :=
  kwargs.any (fun k => !(params.contains k))

/-- Model of `_step_create_video` (run_automation.py lines 1044-1114).  The
video-clips branch (`use_videos` and clips present, line 1060) delegates to
`_compile_video_clips`, modelled opaquely by `clipResult`.  Otherwise the
body (inner music-mixing `try` caught internally) reaches the
`creator.create_video(...)` call; if that call raises `TypeError` the
enclosing handler (lines 1112-1114) returns `False`.  `true` stands for the
success path after a completed call. -/
def step_create_video (use_videos has_videos clipResult : Bool) : Bool :=
  if use_videos && has_videos then clipResult
  else if callRaisesTypeError create_video_params step_create_video_kwargs then
    false
  else true

/-- C4 (counterexample): with 3 assets each held 10 s, both junctions carry
`offset = 10 - 0.8 = 46/5`; but asset 2's cumulative start time is
`2 * 10 = 20`, so the claimed offset for the second junction would be
`20 - 0.8 = 96/5 ≠ 46/5`.  The `fade_start` of line 401 does not depend on
`i`. -/
theorem claim_xfade_offset_counterexample :
    build_image_filter_xfades 3 10 =
      [{ index := 1, transition := "fade", duration := FADE_DURATION,
         offset := 10 - FADE_DURATION },
       { index := 2, transition := "fade", duration := FADE_DURATION,
         offset := 10 - FADE_DURATION }] ∧
    10 - FADE_DURATION ≠ cumulativeStart 2 10 - FADE_DURATION := by
  constructor
  · rfl
  · norm_num [cumulativeStart, FADE_DURATION]

/-- C4 (amended): every cross-fade junction uses the fixed fade duration and
one constant offset, `duration_per_image - FADE_DURATION`, independent of
position; this equals the asset's cumulative start time minus the fade
duration only at the first junction. -/
theorem claim_xfade_offset_amended (numImages : ℕ) (d : ℚ) (h : 2 ≤ numImages) :
    ∀ j ∈ build_image_filter_xfades numImages d,
      j.duration = FADE_DURATION ∧
      j.offset = d - FADE_DURATION ∧
      (j.index = 1 → j.offset = cumulativeStart j.index d - FADE_DURATION) := by
  intro j hj
  unfold build_image_filter_xfades at hj
  rw [if_pos (by omega)] at hj
  obtain ⟨k, _, rfl⟩ := List.mem_map.mp hj
  refine ⟨rfl, rfl, ?_⟩
  intro h1
  have hk : k = 0 := by
    change k + 1 = 1 at h1
    omega
  subst hk
  show d - FADE_DURATION = cumulativeStart 1 d - FADE_DURATION
  simp [cumulativeStart]

/-- Witness for C4 (amended): the first junction of a 3-asset, 10 s-per-asset
graph. -/
theorem claim_xfade_offset_amended_witness :
    ({ index := 1, transition := "fade", duration := FADE_DURATION,
       offset := 10 - FADE_DURATION } : XfadeJunction).duration
        = FADE_DURATION ∧
    ({ index := 1, transition := "fade", duration := FADE_DURATION,
       offset := 10 - FADE_DURATION } : XfadeJunction).offset
        = 10 - FADE_DURATION ∧
    (({ index := 1, transition := "fade", duration := FADE_DURATION,
        offset := 10 - FADE_DURATION } : XfadeJunction).index = 1 →
      ({ index := 1, transition := "fade", duration := FADE_DURATION,
         offset := 10 - FADE_DURATION } : XfadeJunction).offset =
        cumulativeStart
          ({ index := 1, transition := "fade", duration := FADE_DURATION,
             offset := 10 - FADE_DURATION } : XfadeJunction).index 10
          - FADE_DURATION) :=
  claim_xfade_offset_amended 3 10 (by decide)
    { index := 1, transition := "fade", duration := FADE_DURATION,
      offset := 10 - FADE_DURATION }
    (by
      show _ ∈ [({ index := 1, transition := "fade", duration := FADE_DURATION,
                   offset := 10 - FADE_DURATION } : XfadeJunction),
                { index := 2, transition := "fade", duration := FADE_DURATION,
                  offset := 10 - FADE_DURATION }]
      exact List.mem_cons_self _ _)

/-- C5 (counterexample): the encoder exits 0 and the declared output file
exists but is zero bytes — `create_video`'s verification accepts it, no
error is raised, contradicting the claim's "absent or zero bytes" clause. -/
theorem claim_encode_verification_counterexample :
    create_video_verify { present := true, sizeBytes := 0 } = Except.ok () := rfl

/-- C5 (amended): after the encoder exits 0, `create_video` verifies only
that the declared output file exists before returning: an absent file raises
`RuntimeError`, but the file's size is never checked, so a zero-byte output
is accepted. -/
theorem claim_encode_verification_amended (fs : OutputFileState) :
    create_video_verify fs =
      (if fs.present then Except.ok ()
       else Except.error "Video file was not created") := by
  cases fs with
  | mk p s => cases p <;> rfl

/-- C6 (confirmed): an encoder failing every attempt with a transient-class
stderr pattern is retried up to exactly `MAX_RETRIES = 3` attempts with
`2^attempt`-second sleeps between consecutive attempts (2 s then 4 s) before
the error is re-raised; a non-transient subprocess failure is re-raised at
the first attempt with no sleep and no further attempt. -/
theorem claim_retry_ceiling (outcomesT outcomesF : ℕ → RunOutcome)
    (e1 e2 : String)
    (h1 : ∀ a, outcomesT a = RunOutcome.calledProcessError e1)
    (ht : isTransientError e1 = true)
    (h2 : outcomesF 1 = RunOutcome.calledProcessError e2)
    (hf : isTransientError e2 = false) :
    run_ffmpeg outcomesT MAX_RETRIES
      = (3, [2, 4], FfmpegResult.raisedProcessError e1) ∧
    run_ffmpeg outcomesF MAX_RETRIES
      = (1, [], FfmpegResult.raisedProcessError e2) := by
  constructor
  · simp [run_ffmpeg, MAX_RETRIES, runFfmpegLoop, h1, ht]
  · simp [run_ffmpeg, MAX_RETRIES, runFfmpegLoop, h2, hf]

/-- Witness for C6: a stderr matching the `I/O error` pattern versus one
matching no transient pattern. -/
theorem claim_retry_ceiling_witness :
    run_ffmpeg
        (fun _ => RunOutcome.calledProcessError
          "av_interleaved_write_frame(): I/O error") MAX_RETRIES
      = (3, [2, 4], FfmpegResult.raisedProcessError
          "av_interleaved_write_frame(): I/O error") ∧
    run_ffmpeg
        (fun _ => RunOutcome.calledProcessError
          "Invalid data found when processing input") MAX_RETRIES
      = (1, [], FfmpegResult.raisedProcessError
          "Invalid data found when processing input") :=
  claim_retry_ceiling _ _ _ _ (fun _ => rfl) (by decide) rfl (by decide)

/-- C7 (confirmed): a `TimeoutExpired` on the first attempt terminates
`_run_ffmpeg` after exactly one attempt, with no backoff sleep, raising
immediately — for any positive retry ceiling. -/
theorem claim_timeout_not_retried (outcomes : ℕ → RunOutcome)
    (max_retries : ℕ) (h : outcomes 1 = RunOutcome.timeoutExpired)
    (hmr : 1 ≤ max_retries) :
    run_ffmpeg outcomes max_retries = (1, [], FfmpegResult.raisedTimeout) := by
  obtain ⟨r, rfl⟩ : ∃ r, max_retries = r + 1 := ⟨max_retries - 1, by omega⟩
  simp [run_ffmpeg, runFfmpegLoop, h]

/-- Witness for C7: an encoder that always times out, at the default
ceiling. -/
theorem claim_timeout_not_retried_witness :
    run_ffmpeg (fun _ => RunOutcome.timeoutExpired) MAX_RETRIES
      = (1, [], FfmpegResult.raisedTimeout) :=
  claim_timeout_not_retried (fun _ => RunOutcome.timeoutExpired) MAX_RETRIES
    rfl (by decide)

/-- C8 (confirmed): for an existing narration file, `mix_audio_with_music`
never propagates an error: it always returns `output_path`, writing the
mixed bytes only when the category's music file exists and both subprocesses
succeed, and otherwise writing a byte-identical copy of the narration
file. -/
theorem claim_mixing_never_propagates (env : MixEnv)
    (voiceover_path output_path category : String) :
    mix_audio_with_music env voiceover_path output_path category =
      (output_path,
        if (((categoryTrackFile category).map env.musicExists).getD false)
            && env.proberOk && env.encoderOk
        then env.mixedBytes else env.fileBytes voiceover_path) := by
  unfold mix_audio_with_music mixAudioTry
  rcases hc : categoryTrackFile category with _ | f
  · simp
  · cases hm : env.musicExists f <;> cases hp : env.proberOk <;>
      cases he : env.encoderOk <;> simp [hm, hp, he]

/-- C10 (confirmed): `_step_create_video`'s images branch always passes the
unexpected keyword `image_durations` to `create_video`, whose signature does
not accept it, so the call raises `TypeError` before any encoding and the
step returns `False`. -/
theorem claim_create_video_type_error (use_videos has_videos clipResult : Bool)
    (h : (use_videos && has_videos) = false) :
    callRaisesTypeError create_video_params step_create_video_kwargs = true ∧
    step_create_video use_videos has_videos clipResult = false := by
  have hc : callRaisesTypeError create_video_params step_create_video_kwargs
      = true := by decide
  exact ⟨hc, by simp [step_create_video, h, hc]⟩

/-- Witness for C10: the default configuration (images, not video clips). -/
theorem claim_create_video_type_error_witness :
    callRaisesTypeError create_video_params step_create_video_kwargs = true ∧
    step_create_video false false true = false :=
  claim_create_video_type_error false false true rfl

end YoutubeAutomate
